import Mathlib

/-!
# Verification of the death-pool visualization scripts

Shallow embedding of the two scripts `death_pool.py` (grid mode) and
`death_pool_animated.py` (sequence mode).  Rows of the input CSV become
`Record`s; the pandas `groupby("Player").agg(...)` call becomes `aggregate`;
the year-range generation, the loader column checks, the size and color
encodings and the frame-cleanup control flow are each embedded as explicit
Lean functions, translated clause by clause from the Python source.
Machine floats are modelled by `ℚ` (all the arithmetic the claims touch is
exact in the source up to float rounding), with `Option ℚ` marking values
that the source leaves as NaN (0/0).
-/

namespace DeathPool

/-- One row of `data/death_pool_stats.csv` (§3 Record). -/
structure Record where
  player : String
  year : Int
  deaths : Rat
  points : Rat
  wins : Nat
  rank : Rat
deriving DecidableEq

/-- One row of the aggregated `df_player` frame: `groupby("Player").agg(
Total_Deaths=sum, Total_Points=sum, Total_Wins=sum, Average_Rank=mean,
Count_Years=nunique)` (the animated script omits `Count_Years`). -/
structure Summary where
  player : String
  totalDeaths : Rat
  totalPoints : Rat
  totalWins : Nat
  averageRank : Rat
  countYears : Nat
deriving DecidableEq

/-! ## Python/pandas primitives -/

/-- Python `min(xs)` (no value on an empty list, where Python raises). -/
def listMin {α : Type} [LinearOrder α] : List α → Option α
  | [] => none
  | x :: xs =>
    some (match listMin xs with
      | none => x
      | some m => min x m)

/-- Python `max(xs)` / `Series.max()` (no value on an empty list). -/
def listMax {α : Type} [LinearOrder α] : List α → Option α
  | [] => none
  | x :: xs =>
    some (match listMax xs with
      | none => x
      | some m => max x m)

/-- Worker for `pandasUnique`, carrying the set of values already seen. -/
def uniqueAux {α : Type} [DecidableEq α] (seen : List α) : List α → List α
  | [] => []
  | x :: xs => if x ∈ seen then uniqueAux seen xs else x :: uniqueAux (x :: seen) xs

/-- pandas `Series.unique()`: the distinct values in order of first
appearance. -/
def pandasUnique {α : Type} [DecidableEq α] (l : List α) : List α :=
  uniqueAux [] l

/-- Python `list(range(a, b + 1))`: the integers from `a` to `b` inclusive
(empty when `b < a`). -/
def rangeIncl (a b : Int) : List Int :=
  (List.range (b + 1 - a).toNat).map (fun i : Nat => a + (i : Int))

/-- Code-point lexicographic `≤` on character lists, the order pandas uses
for string group keys (and Python for `str` comparison). -/
def strLeB : List Char → List Char → Bool
  | [], _ => true
  | _ :: _, [] => false
  | a :: as, b :: bs => if a < b then true else if b < a then false else strLeB as bs

/-- The order on player names by which pandas sorts group keys. -/
def strLe (a b : String) : Prop := strLeB a.data b.data = true

instance : DecidableRel strLe := fun a b => by
  unfold strLe; infer_instance

/-! ## Aggregator (`plot_cumulative_years` lines 40-50, `plot_for_year`
lines 38-47) -/

/-- The filter `df[df["Year"].isin(year_range)]`. -/
def filterRange (rows : List Record) (yearRange : List Int) : List Record :=
  rows.filter (fun r => decide (r.year ∈ yearRange))

/-- The rows of one `groupby("Player")` group. -/
def rowsFor (p : String) (rows : List Record) : List Record :=
  rows.filter (fun r => decide (r.player = p))

/-- The group keys produced by `groupby("Player")`: distinct player names,
sorted ascending (pandas `groupby` has `sort=True` by default). -/
def playersOf (rows : List Record) : List String :=
  List.insertionSort strLe (pandasUnique (rows.map Record.player))

/-- One aggregated row for player `p`. -/
def mkSummary (rows : List Record) (p : String) : Summary :=
  let g := rowsFor p rows
  { player := p
    totalDeaths := (g.map Record.deaths).sum
    totalPoints := (g.map Record.points).sum
    totalWins := (g.map Record.wins).sum
    averageRank := (g.map Record.rank).sum / (g.length : Rat)
    countYears := (pandasUnique (g.map Record.year)).length }

/-- The call `df_filtered.groupby("Player").agg(...).reset_index()`: one summary per
distinct player of `rows`, in ascending key order. -/
def aggregate (rows : List Record) : List Summary :=
  (playersOf rows).map (mkSummary rows)

/-! ## Year-range generation -/

/-- death_pool.py line 79:
`[list(range(2017, year + 1)) for year in range(2017, 2026)]` — the
hard-coded cumulative ranges 2017–2017 … 2017–2025 of the grid script,
independent of the loaded data. -/
def year_ranges_grid : List (List Int) :=
  (List.range 9).map (fun k => rangeIncl 2017 (2017 + (k : Int)))

/-- death_pool_animated.py line 31: `valid_years = df["Year"].unique()`. -/
def valid_years (rows : List Record) : List Int :=
  pandasUnique (rows.map Record.year)

/-- death_pool_animated.py line 33:
`[list(range(min(valid_years), year + 1)) for year in valid_years if year >= min(valid_years)]`
(`none` when the dataset is empty, where the Python `min` raises). -/
def year_ranges_animated (rows : List Record) : Option (List (List Int)) :=
  match listMin (valid_years rows) with
  | none => none
  | some m =>
    some (((valid_years rows).filter (fun y => decide (m ≤ y))).map (fun y => rangeIncl m y))

/-! ## Loader column validation -/

/-- death_pool.py line 18. -/
def required_columns : List String := ["Deaths", "Points", "Wins", "Rank", "Player", "Year"]

/-- death_pool.py line 19:
`[col for col in required_columns if col not in df.columns]`. -/
def missing_columns (cols : List String) : List String :=
  required_columns.filter (fun c => decide (c ∉ cols))

/-- death_pool.py lines 17-22: schema validation of the grid script; the
error branch carries the `ValueError` message text. -/
def grid_load_check (cols : List String) : Except String Unit :=
  if missing_columns cols = [] then Except.ok ()
  else Except.error ("Missing required columns: " ++ String.intercalate ", " (missing_columns cols))

/-- death_pool_animated.py lines 13-15: schema validation in load_data —
only `Year` and `Player` are checked, and the message names no column. -/
def animated_load_check (cols : List String) : Except String Unit :=
  if "Year" ∉ cols ∨ "Player" ∉ cols then
    Except.error "Missing required columns in the dataset."
  else Except.ok ()

/-! ## Encoder: color -/

/-- Min-max normalization `(x - min) / (max - min)` over a series, with `none` standing for the
NaN/undefined value the source produces when `max = min` (a 0/0 division)
or when the series is empty. -/
def minMaxNormalize (vals : List Rat) (x : Rat) : Option Rat :=
  match listMin vals, listMax vals with
  | some lo, some hi => if hi = lo then none else some ((x - lo) / (hi - lo))
  | _, _ => none

/-- death_pool_animated.py lines 49-52: the `Rank_Color` column of
`df_player`, a min-max normalization of `Average_Rank` across the players
of the current range. -/
def animatedRankColors (df_player : List Summary) : List (Option Rat) :=
  df_player.map (fun s => minMaxNormalize (df_player.map Summary.averageRank) s.averageRank)

/-! ## Encoder: size -/

/-- Reinterpret an integer as a signed two-complement 64-bit value: the
wraparound that numpy int64 arithmetic applies on overflow. -/
def wrap64 (n : Int) : Int :=
  let m := n % (2 ^ 64 : Int)
  if m < 2 ^ 63 then m else m - 2 ^ 64

/-- death_pool.py line 57: `np.clip(2 ** Total_Wins, None, 500) * 100`,
computed in numpy int64 arithmetic (`Wins` loads as an int64 column and
groupby-sum and `**` stay int64): the power and the final product wrap as
signed 64-bit values, so `2 ** Total_Wins` overflows from
`Total_Wins = 63` on — the power wraps to -2^63 before `np.clip` can cap
it, and `* 100` then wraps the size to 0. -/
def gridSize (w : Nat) : Int := wrap64 (min (wrap64 (2 ^ w)) 500 * 100)

/-- death_pool_animated.py line 55: `sizing_factor = 100  # Base size for 0 wins`. -/
def sizing_factor : Rat := 100

/-- death_pool_animated.py line 56: `max_size = 500  # Maximum size for players with 2 wins`. -/
def max_size : Rat := 500

/-- death_pool_animated.py line 59:
`(Total_Wins / 2) * (max_size - sizing_factor) + sizing_factor`. -/
def animatedSize (w : Nat) : Rat := ((w : Rat) / 2) * (max_size - sizing_factor) + sizing_factor

/-! ## Grid-mode plotting (death_pool.py) -/

/-- A row of the dataframe of the grid script after lines 24-27 added the
`Rank_Color` column (`none` models the NaN produced when all ranks in the
file are equal). -/
structure RecordC extends Record where
  rankColor : Option Rat
deriving DecidableEq

/-- death_pool.py lines 24-27: add the `Rank_Color` column, a per-row
min-max normalization of `Rank` over the whole dataframe. -/
def addRankColor (rows : List Record) : List RecordC :=
  rows.map (fun r => { toRecord := r, rankColor := minMaxNormalize (rows.map Record.rank) r.rank })

/-- The arguments the grid script passes to `ax.scatter` and `ax.text` for
one point of one subplot: position, color value, size value, text label. -/
structure PointSpec where
  x : Rat
  y : Rat
  color : Rat
  size : Int
  label : String
deriving DecidableEq

/-- death_pool.py lines 40-60 and 72-76, `plot_cumulative_years`: filter to
the year range, aggregate per player (`.agg` reads only the `Deaths`,
`Points`, `Wins`, `Rank` and `Year` columns of the filtered frame, which is
what the projection `RecordC.toRecord` keeps), then emit one point per
player row.  The color channel is `df_player["Average_Rank"]` — the raw
mean — and the size channel is the clipped exponential of `Total_Wins`. -/
def plot_cumulative_years_points (rows : List RecordC) (yearRange : List Int) :
    List PointSpec :=
  let df_filtered := rows.filter (fun r => decide (r.toRecord.year ∈ yearRange))
  let df_player := aggregate (df_filtered.map RecordC.toRecord)
  df_player.map (fun s =>
    { x := s.totalDeaths, y := s.totalPoints, color := s.averageRank,
      size := gridSize s.totalWins, label := s.player })

/-! ## Sequence-mode control flow (death_pool_animated.py) -/

/-- death_pool_animated.py line 120: the GIF output path. -/
def gif_path : String := "images/death_pool_standings.gif"

/-- death_pool_animated.py line 111: `f"images/frame_{year_range[-1]}.png"`. -/
def framePathFor (yearRange : List Int) : String :=
  "images/frame_" ++
    (match yearRange.getLast? with
      | some y => toString y
      | none => "") ++ ".png"

/-- death_pool_animated.py lines 116-135: the tail of the script once the
frame files are on disk.  The `try` around the GIF assembly catches any
failure (`assembleOk = false` means the encoder raised); the cleanup loop
that follows it runs unconditionally and removes every path in
`frame_paths` (a failing `os.remove` is caught per file and changes
nothing).  Returns the files on disk afterwards. -/
def sequenceTail (assembleOk : Bool) (frame_paths : List String) (disk : List String) :
    List String :=
  let afterAssembly := if assembleOk then gif_path :: disk else disk
  afterAssembly.filter (fun f => decide (f ∉ frame_paths))

/-- death_pool_animated.py lines 36-100: `plot_for_year` either renders and
saves the frame or raises somewhere in its body; the enclosing
`try/except Exception` catches any exception and prints one error line.
`renderOk` is the oracle saying whether the body succeeds on a given
range.  Returns the file saved (if any) and the number of error lines
printed. -/
def plot_for_year_model (renderOk : List Int → Bool) (yearRange : List Int) :
    Option String × Nat :=
  if renderOk yearRange then (some (framePathFor yearRange), 0) else (none, 1)

/-- The observable outcome of one run of the sequence-mode script. -/
structure SeqRun where
  frame_paths : List String
  produced : List String
  chartErrors : Nat
  assemblyAttempted : Bool
  gifCreated : Bool
  completed : Bool
deriving DecidableEq

/-- death_pool_animated.py lines 107-128: the main loop — which appends
`output_path` to `frame_paths` whether or not the render succeeded — and
the GIF assembly attempt that follows.  Assembly succeeds only if the
encoder succeeds (`assembleOk`), every path of `frame_paths` exists
(`Image.open` raises on a missing file) and there is a first frame
(`frames[0]` raises on an empty list); its failure is caught.  Control
always reaches the end of the script. -/
def runSequence (renderOk : List Int → Bool) (assembleOk : Bool)
    (ranges : List (List Int)) : SeqRun :=
  let results := ranges.map (fun yr => (yr, plot_for_year_model renderOk yr))
  let frame_paths := results.map (fun x => framePathFor x.1)
  let produced := results.filterMap (fun x => x.2.1)
  { frame_paths := frame_paths
    produced := produced
    chartErrors := (results.map (fun x => x.2.2)).sum
    assemblyAttempted := true
    gifCreated := assembleOk && produced == frame_paths && !frame_paths.isEmpty
    completed := true }

/-! ## Fixtures (concrete datasets used by witnesses and counterexamples) -/

/-- The three-row fixture of spec §8 ("End-to-end"). -/
def fix3 : List Record :=
  [ { player := "PlayerA", year := 2020, deaths := 1, points := 10, wins := 0, rank := 2 },
    { player := "PlayerB", year := 2020, deaths := 3, points := 5, wins := 1, rank := 1 },
    { player := "PlayerA", year := 2021, deaths := 2, points := 4, wins := 0, rank := 3 } ]

/-- Expected through-2021 summary row for PlayerA on `fix3`. -/
def summaryA : Summary :=
  { player := "PlayerA", totalDeaths := 3, totalPoints := 14, totalWins := 0,
    averageRank := 5 / 2, countYears := 2 }

/-- Expected through-2021 summary row for PlayerB on `fix3`. -/
def summaryB : Summary :=
  { player := "PlayerB", totalDeaths := 3, totalPoints := 5, totalWins := 1,
    averageRank := 1, countYears := 1 }

/-- A dataset whose distinct years are {2017, 2019, 2020} (spec §8,
"Cumulative range generation"). -/
def fixYears : List Record :=
  [ { player := "PlayerA", year := 2017, deaths := 1, points := 1, wins := 0, rank := 1 },
    { player := "PlayerA", year := 2019, deaths := 1, points := 1, wins := 0, rank := 1 },
    { player := "PlayerA", year := 2020, deaths := 1, points := 1, wins := 0, rank := 1 } ]

/-- A dataset with a single player (so every range has one `df_player` row
and `Average_Rank.min = Average_Rank.max`). -/
def fixOnePlayer : List Record :=
  [ { player := "PlayerA", year := 2017, deaths := 1, points := 10, wins := 0, rank := 5 } ]

/-- The three-row fixture as a grid-script dataframe, one `Rank_Color`
assignment. -/
def fix3C : List RecordC := fix3.map (fun r => { toRecord := r, rankColor := none })

/-- The three-row fixture with a different `Rank_Color` column. -/
def fix3Cb : List RecordC := fix3.map (fun r => { toRecord := r, rankColor := some 0 })

/-- Expected plotted point for PlayerA on the fixture, range 2020–2021. -/
def pointA : PointSpec := { x := 3, y := 14, color := 5 / 2, size := 100, label := "PlayerA" }

/-- Expected plotted point for PlayerB on the fixture, range 2020–2021. -/
def pointB : PointSpec := { x := 3, y := 5, color := 1, size := 200, label := "PlayerB" }

end DeathPool

namespace DeathPool

/-! ## Helper lemmas: pandas primitives -/

theorem mem_uniqueAux {α : Type} [DecidableEq α] (l : List α) :
    ∀ (seen : List α) (a : α), a ∈ uniqueAux seen l ↔ a ∈ l ∧ a ∉ seen := by
  induction l with
  | nil => intro seen a; simp [uniqueAux]
  | cons x xs ih =>
    intro seen a
    by_cases hx : x ∈ seen
    · rw [uniqueAux, if_pos hx, ih]
      by_cases hax : a = x
      · simp only [hax, List.mem_cons]
        tauto
      · simp [hax]
    · rw [uniqueAux, if_neg hx]
      by_cases hax : a = x
      · simp [hax, hx]
      · simp only [List.mem_cons, hax, false_or, ih, List.mem_cons]

theorem nodup_uniqueAux {α : Type} [DecidableEq α] (l : List α) :
    ∀ seen : List α, (uniqueAux seen l).Nodup := by
  induction l with
  | nil => intro seen; simp [uniqueAux]
  | cons x xs ih =>
    intro seen
    by_cases hx : x ∈ seen
    · rw [uniqueAux, if_pos hx]; exact ih seen
    · rw [uniqueAux, if_neg hx]
      refine List.Nodup.cons ?_ (ih (x :: seen))
      intro hmem
      exact ((mem_uniqueAux xs (x :: seen) x).1 hmem).2 (List.mem_cons_self x seen)

theorem mem_pandasUnique {α : Type} [DecidableEq α] {l : List α} {a : α} :
    a ∈ pandasUnique l ↔ a ∈ l := by
  rw [pandasUnique, mem_uniqueAux]
  simp

theorem nodup_pandasUnique {α : Type} [DecidableEq α] (l : List α) :
    (pandasUnique l).Nodup :=
  nodup_uniqueAux l []

theorem listMin_le {α : Type} [LinearOrder α] :
    ∀ (l : List α) (m : α), listMin l = some m → ∀ y ∈ l, m ≤ y := by
  intro l
  induction l with
  | nil => intro m h; simp [listMin] at h
  | cons x xs ih =>
    intro m h y hy
    rw [listMin] at h
    cases hxs : listMin xs with
    | none =>
      cases xs with
      | nil =>
        rw [hxs] at h
        simp only [Option.some.injEq] at h
        rcases List.mem_cons.1 hy with rfl | hmem
        · exact le_of_eq h.symm
        · simp at hmem
      | cons z zs => rw [listMin] at hxs; exact absurd hxs (by simp)
    | some m' =>
      rw [hxs] at h
      simp only [Option.some.injEq] at h
      rcases List.mem_cons.1 hy with rfl | hmem
      · exact le_of_eq_of_le h.symm (min_le_left _ _)
      · exact le_trans (le_of_eq_of_le h.symm (min_le_right _ _)) (ih m' hxs y hmem)

theorem mem_rangeIncl {a b z : Int} : z ∈ rangeIncl a b ↔ a ≤ z ∧ z ≤ b := by
  rw [rangeIncl]
  constructor
  · intro h
    obtain ⟨i, hi, hz⟩ := List.mem_map.1 h
    rw [List.mem_range] at hi
    omega
  · rintro ⟨h1, h2⟩
    exact List.mem_map.2 ⟨(z - a).toNat, List.mem_range.2 (by omega), by omega⟩

/-! ## Helper lemmas: the string order used for group keys -/

theorem strLeB_total : ∀ as bs : List Char, strLeB as bs = true ∨ strLeB bs as = true := by
  intro as
  induction as with
  | nil => intro bs; left; rfl
  | cons a as ih =>
    intro bs
    cases bs with
    | nil => right; rfl
    | cons b bs =>
      rcases lt_trichotomy a b with h | h | h
      · left; simp [strLeB, h]
      · subst h
        rcases ih bs with h' | h'
        · left; simpa [strLeB, lt_irrefl] using h'
        · right; simpa [strLeB, lt_irrefl] using h'
      · right; simp [strLeB, h]

theorem strLeB_trans : ∀ as bs cs : List Char,
    strLeB as bs = true → strLeB bs cs = true → strLeB as cs = true := by
  intro as
  induction as with
  | nil => intro bs cs _ _; rfl
  | cons a as ih =>
    intro bs cs h1 h2
    cases bs with
    | nil => simp [strLeB] at h1
    | cons b bs =>
      cases cs with
      | nil => simp [strLeB] at h2
      | cons c cs =>
        rcases lt_trichotomy a b with hab | hab | hab
        · rcases lt_trichotomy b c with hbc | hbc | hbc
          · simp [strLeB, lt_trans hab hbc]
          · subst hbc; simp [strLeB, hab]
          · rw [strLeB, if_neg (asymm hbc), if_pos hbc] at h2; exact absurd h2 (by simp)
        · subst hab
          rw [strLeB, if_neg (lt_irrefl a), if_neg (lt_irrefl a)] at h1
          rcases lt_trichotomy a c with hbc | hbc | hbc
          · simp [strLeB, hbc]
          · subst hbc
            rw [strLeB, if_neg (lt_irrefl a), if_neg (lt_irrefl a)] at h2 ⊢
            exact ih bs cs h1 h2
          · rw [strLeB, if_neg (asymm hbc), if_pos hbc] at h2; exact absurd h2 (by simp)
        · rw [strLeB, if_neg (asymm hab), if_pos hab] at h1; exact absurd h1 (by simp)

instance : IsTotal String strLe :=
  ⟨fun a b => strLeB_total a.data b.data⟩

instance : IsTrans String strLe :=
  ⟨fun a b c => strLeB_trans a.data b.data c.data⟩

/-! ## Helper lemmas: the aggregator -/

theorem mem_playersOf {rows : List Record} {p : String} :
    p ∈ playersOf rows ↔ ∃ r ∈ rows, r.player = p := by
  rw [playersOf, List.mem_insertionSort, mem_pandasUnique, List.mem_map]

theorem nodup_playersOf (rows : List Record) : (playersOf rows).Nodup :=
  ((List.perm_insertionSort strLe _).nodup_iff).2 (nodup_pandasUnique _)

theorem sorted_playersOf (rows : List Record) : List.Sorted strLe (playersOf rows) :=
  List.sorted_insertionSort strLe _

theorem aggregate_map_player (rows : List Record) :
    (aggregate rows).map Summary.player = playersOf rows := by
  rw [aggregate, List.map_map]
  exact (List.map_congr_left (fun p _ => rfl)).trans (List.map_id _)

theorem mem_aggregate {rows : List Record} {s : Summary} :
    s ∈ aggregate rows ↔ s.player ∈ playersOf rows ∧ s = mkSummary rows s.player := by
  rw [aggregate, List.mem_map]
  constructor
  · rintro ⟨p, hp, rfl⟩
    exact ⟨hp, rfl⟩
  · rintro ⟨hp, hs⟩
    exact ⟨s.player, hp, hs.symm⟩

/-- Fields of every aggregated row are the sums / mean over the group of
rows of that player. -/
theorem aggregate_fields {rows : List Record} {s : Summary} (h : s ∈ aggregate rows) :
    s.totalDeaths = ((rowsFor s.player rows).map Record.deaths).sum ∧
    s.totalPoints = ((rowsFor s.player rows).map Record.points).sum ∧
    s.totalWins = ((rowsFor s.player rows).map Record.wins).sum ∧
    s.averageRank =
      ((rowsFor s.player rows).map Record.rank).sum / ((rowsFor s.player rows).length : Rat) := by
  rw [aggregate, List.mem_map] at h
  obtain ⟨p, hp, rfl⟩ := h
  exact ⟨rfl, rfl, rfl, rfl⟩

/-- Grouping after the year filter equals one filter over the raw rows. -/
theorem rowsFor_filterRange (p : String) (rows : List Record) (yearRange : List Int) :
    rowsFor p (filterRange rows yearRange) =
      rows.filter (fun r => decide (r.player = p) && decide (r.year ∈ yearRange)) := by
  rw [rowsFor, filterRange, List.filter_filter]

theorem countP_eq_ite_of_nodup {l : List String} (h : l.Nodup) (p : String) :
    l.countP (fun q => decide (q = p)) = if p ∈ l then 1 else 0 := by
  induction l with
  | nil => simp
  | cons x xs ih =>
    rcases List.nodup_cons.1 h with ⟨hx, hxs⟩
    by_cases hxp : x = p
    · subst hxp
      have h0 : xs.countP (fun q => decide (q = x)) = 0 :=
        List.countP_eq_zero.2 (fun a ha => by
          simp only [decide_eq_true_eq]
          rintro rfl
          exact hx ha)
      simp [List.countP_cons, h0]
    · have hpx : p ≠ x := fun h' => hxp h'.symm
      simp [List.countP_cons, hxp, ih hxs, List.mem_cons, hpx]

/-- Concrete evaluation of the aggregator on the three-row spec fixture
over the range 2020–2021. -/
theorem fix3_aggregate :
    aggregate (filterRange fix3 (rangeIncl 2020 2021)) = [summaryA, summaryB] := by
  have h1 : filterRange fix3 (rangeIncl 2020 2021) = fix3 := by decide
  have h2 : playersOf fix3 = ["PlayerA", "PlayerB"] := by decide
  have h3 : rowsFor "PlayerA" fix3 =
      [ { player := "PlayerA", year := 2020, deaths := 1, points := 10, wins := 0, rank := 2 },
        { player := "PlayerA", year := 2021, deaths := 2, points := 4, wins := 0, rank := 3 } ] := by
    decide
  have h4 : rowsFor "PlayerB" fix3 =
      [ { player := "PlayerB", year := 2020, deaths := 3, points := 5, wins := 1, rank := 1 } ] := by
    decide
  rw [h1, aggregate, h2]
  simp [mkSummary, h3, h4, summaryA, summaryB, Summary.mk.injEq]
  norm_num
  decide

/-! ## Claim theorems -/

/-- C6: for every player and year range, `Total_Deaths`, `Total_Points` and
`Total_Wins` of the aggregated row are the exact sums of the in-range
`Deaths`, `Points` and `Wins` values of that player, and `Average_Rank` is the
arithmetic mean of the in-range `Rank` values; in particular, on the
three-row fixture the through-2021 row for PlayerA is
(TotalDeaths 3, TotalPoints 14, TotalWins 0, AverageRank 5/2). -/
theorem C6_aggregates_are_exact_sums :
    (∀ (rows : List Record) (yearRange : List Int) (s : Summary),
      s ∈ aggregate (filterRange rows yearRange) →
        s.totalDeaths = ((rows.filter (fun r =>
            decide (r.player = s.player) && decide (r.year ∈ yearRange))).map
          Record.deaths).sum ∧
        s.totalPoints = ((rows.filter (fun r =>
            decide (r.player = s.player) && decide (r.year ∈ yearRange))).map
          Record.points).sum ∧
        s.totalWins = ((rows.filter (fun r =>
            decide (r.player = s.player) && decide (r.year ∈ yearRange))).map
          Record.wins).sum ∧
        s.averageRank = ((rows.filter (fun r =>
            decide (r.player = s.player) && decide (r.year ∈ yearRange))).map
          Record.rank).sum /
          ((rows.filter (fun r =>
            decide (r.player = s.player) && decide (r.year ∈ yearRange))).length : Rat)) ∧
    aggregate (filterRange fix3 (rangeIncl 2020 2021)) = [summaryA, summaryB] := by
  constructor
  · intro rows yearRange s h
    have hf := aggregate_fields h
    rwa [rowsFor_filterRange] at hf
  · exact fix3_aggregate

/-- Witness for C6: the PlayerA row of the fixture is in the aggregated
output and its `Total_Deaths` is the exact in-range sum. -/
theorem C6_aggregates_are_exact_sums_witness :
    summaryA ∈ aggregate (filterRange fix3 (rangeIncl 2020 2021)) ∧
    summaryA.totalDeaths =
      ((fix3.filter (fun r =>
          decide (r.player = summaryA.player) && decide (r.year ∈ rangeIncl 2020 2021))).map
        Record.deaths).sum := by
  have hmem : summaryA ∈ aggregate (filterRange fix3 (rangeIncl 2020 2021)) := by
    rw [fix3_aggregate]
    exact List.mem_cons_self _ _
  exact ⟨hmem, (C6_aggregates_are_exact_sums.1 fix3 (rangeIncl 2020 2021) summaryA hmem).1⟩

/-- C7: for every dataset and year range, the aggregated output has exactly
one row per player having at least one record in range, and no row for a
player with none. -/
theorem C7_one_summary_per_player :
    ∀ (rows : List Record) (yearRange : List Int) (p : String),
      (aggregate (filterRange rows yearRange)).countP (fun s => decide (s.player = p)) =
        if ∃ r ∈ rows, r.player = p ∧ r.year ∈ yearRange then 1 else 0 := by
  intro rows yearRange p
  have hiff : p ∈ playersOf (filterRange rows yearRange) ↔
      ∃ r ∈ rows, r.player = p ∧ r.year ∈ yearRange := by
    rw [mem_playersOf]
    constructor
    · rintro ⟨r, hr, rfl⟩
      rw [filterRange, List.mem_filter] at hr
      exact ⟨r, hr.1, rfl, by simpa using hr.2⟩
    · rintro ⟨r, hr, hp, hy⟩
      refine ⟨r, ?_, hp⟩
      rw [filterRange, List.mem_filter]
      exact ⟨hr, by simpa using hy⟩
  rw [aggregate, List.countP_map]
  have hcomp : ((fun s => decide (s.player = p)) ∘ mkSummary (filterRange rows yearRange)) =
      (fun q => decide (q = p)) := funext (fun q => rfl)
  rw [hcomp, countP_eq_ite_of_nodup (nodup_playersOf _) p, if_congr hiff rfl rfl]

/-- C1 counterexample: on a dataset with distinct years {2017, 2019, 2020}
the animated script generates [2017], [2017, 2018, 2019],
[2017, 2018, 2019, 2020] — the second and third ranges include 2018, a year
absent from the data — not the claimed [2017], [2017, 2019],
[2017, 2019, 2020]. -/
theorem C1_counterexample :
    year_ranges_animated fixYears =
      some [[2017], [2017, 2018, 2019], [2017, 2018, 2019, 2020]] ∧
    some [[(2017 : Int)], [2017, 2018, 2019], [2017, 2018, 2019, 2020]] ≠
      some [[(2017 : Int)], [2017, 2019], [2017, 2019, 2020]] := by
  constructor <;> decide

/-- C1 amended: the animated script derives one range per distinct year `Y`
of the data (in order of first appearance), each range being all integer
years from the dataset minimum through `Y` inclusive — including years not
present in the data; the grid script instead uses the fixed ranges
2017–2017 … 2017–2025, independent of the dataset. -/
theorem C1_ranges_contiguous_from_min :
    (∀ (rows : List Record) (m : Int), listMin (valid_years rows) = some m →
        year_ranges_animated rows = some ((valid_years rows).map (fun y => rangeIncl m y))) ∧
    (∀ a b z : Int, z ∈ rangeIncl a b ↔ a ≤ z ∧ z ≤ b) ∧
    year_ranges_grid =
      [rangeIncl 2017 2017, rangeIncl 2017 2018, rangeIncl 2017 2019, rangeIncl 2017 2020,
       rangeIncl 2017 2021, rangeIncl 2017 2022, rangeIncl 2017 2023, rangeIncl 2017 2024,
       rangeIncl 2017 2025] := by
  refine ⟨?_, fun a b z => mem_rangeIncl, by decide⟩
  intro rows m h
  simp only [year_ranges_animated, h]
  have hf : (valid_years rows).filter (fun y => decide (m ≤ y)) = valid_years rows :=
    List.filter_eq_self.2 (fun y hy => by simpa using listMin_le _ m h y hy)
  rw [hf]

/-- Witness for the amended C1 at the {2017, 2019, 2020} fixture. -/
theorem C1_ranges_contiguous_from_min_witness :
    year_ranges_animated fixYears =
      some ((valid_years fixYears).map (fun y => rangeIncl 2017 y)) ∧
    ((2018 : Int) ∈ rangeIncl 2017 2019 ↔ (2017 : Int) ≤ 2018 ∧ (2018 : Int) ≤ 2019) :=
  ⟨C1_ranges_contiguous_from_min.1 fixYears 2017 (by decide),
   C1_ranges_contiguous_from_min.2.1 2017 2019 2018⟩

/-- C2 (code bug): at the failing input — a range holding a single player,
so every `df_player` row shares one `Average_Rank` — the min-max color
normalization of the animated script computes (5-5)/(5-5) = 0/0, an undefined (NaN)
color value (modelled `none`), instead of succeeding with the scale
midpoint 1/2. -/
theorem C2_equal_ranks_give_nan_not_midpoint :
    animatedRankColors (aggregate (filterRange fixOnePlayer (rangeIncl 2017 2017))) =
      [none] ∧
    [(none : Option Rat)] ≠ [some (1 / 2)] := by
  have h1 : filterRange fixOnePlayer (rangeIncl 2017 2017) = fixOnePlayer := by decide
  have h2 : playersOf fixOnePlayer = ["PlayerA"] := by decide
  have h3 : rowsFor "PlayerA" fixOnePlayer =
      [ { player := "PlayerA", year := 2017, deaths := 1, points := 10, wins := 0,
          rank := 5 } ] := by
    decide
  have hagg : aggregate (filterRange fixOnePlayer (rangeIncl 2017 2017)) =
      [{ player := "PlayerA", totalDeaths := 1, totalPoints := 10, totalWins := 0,
         averageRank := 5, countYears := 1 }] := by
    rw [h1, aggregate, h2]
    simp [mkSummary, h3, Summary.mk.injEq, pandasUnique, uniqueAux]
  rw [hagg]
  constructor
  · simp [animatedRankColors, minMaxNormalize, listMin, listMax]
  · simp

/-- C3 counterexample: with the GIF assembly failing, the already-produced
frame file is nevertheless removed — the cleanup loop runs unconditionally
after the reported attempt, so the frame does not remain on disk. -/
theorem C3_counterexample :
    sequenceTail false ["images/frame_2017.png"] ["images/frame_2017.png"] = [] ∧
    "images/frame_2017.png" ∉
      sequenceTail false ["images/frame_2017.png"] ["images/frame_2017.png"] := by
  constructor <;> decide

/-- C3 amended: a file survives the sequence-mode tail iff it was on disk
before (or is the GIF, on assembly success) and is not one of the frame
paths — frames are deleted after the assembly attempt regardless of its
outcome; in particular on success no frame survives. -/
theorem C3_cleanup_unconditional :
    ∀ (assembleOk : Bool) (frame_paths disk : List String) (f : String),
      f ∈ sequenceTail assembleOk frame_paths disk ↔
        (f ∈ disk ∨ (assembleOk = true ∧ f = gif_path)) ∧ f ∉ frame_paths := by
  intro assembleOk frame_paths disk f
  rw [sequenceTail]
  cases assembleOk
  · simp [List.mem_filter]
  · simp [List.mem_filter]
    tauto

/-- C4 counterexample: the loader of the animated script accepts a dataset whose
`Deaths` column is absent (it checks only `Year` and `Player`), so removing
a required column does not always cause a fatal error naming it. -/
theorem C4_counterexample :
    animated_load_check ["Points", "Wins", "Rank", "Player", "Year"] = Except.ok () ∧
    "Deaths" ∈ required_columns ∧
    "Deaths" ∉ ["Points", "Wins", "Rank", "Player", "Year"] := by
  refine ⟨rfl, by decide, by decide⟩

/-- C4 amended: the grid loader succeeds on a full schema and its error
names every missing required column; the animated loader
checks only `Year` and `Player` (with a message naming no column), so only
their absence is fatal there. -/
theorem C4_loader_checks :
    (∀ cols : List String, (∀ c ∈ required_columns, c ∈ cols) →
        grid_load_check cols = Except.ok () ∧ animated_load_check cols = Except.ok ()) ∧
    (∀ cols : List String, missing_columns cols ≠ [] →
        grid_load_check cols = Except.error
          ("Missing required columns: " ++ String.intercalate ", " (missing_columns cols))) ∧
    (∀ (cols : List String) (c : String), c ∈ required_columns → c ∉ cols →
        c ∈ missing_columns cols) ∧
    (∀ cols : List String,
        animated_load_check cols = Except.ok () ↔ "Year" ∈ cols ∧ "Player" ∈ cols) := by
  refine ⟨?_, ?_, ?_, ?_⟩
  · intro cols h
    have hm : missing_columns cols = [] :=
      List.filter_eq_nil_iff.2 (fun c hc => by simpa using h c hc)
    refine ⟨by rw [grid_load_check, if_pos hm], ?_⟩
    rw [animated_load_check, if_neg]
    push_neg
    exact ⟨h "Year" (by decide), h "Player" (by decide)⟩
  · intro cols h
    rw [grid_load_check, if_neg h]
  · intro cols c hc hnc
    rw [missing_columns, List.mem_filter]
    exact ⟨hc, by simpa using hnc⟩
  · intro cols
    rw [animated_load_check]
    by_cases h : "Year" ∉ cols ∨ "Player" ∉ cols
    · rw [if_pos h]
      exact iff_of_false (fun he => Except.noConfusion he)
        (fun hyp => h.elim (fun hy => hy hyp.1) (fun hp => hp hyp.2))
    · rw [if_neg h]
      push_neg at h
      exact iff_of_true rfl h

/-- Witness for the amended C4 at concrete column lists. -/
theorem C4_loader_checks_witness :
    (grid_load_check ["Deaths", "Points", "Wins", "Rank", "Player", "Year"] = Except.ok () ∧
      animated_load_check ["Deaths", "Points", "Wins", "Rank", "Player", "Year"] =
        Except.ok ()) ∧
    grid_load_check ["Points", "Wins", "Rank", "Player", "Year"] = Except.error
      ("Missing required columns: " ++ String.intercalate ", "
        (missing_columns ["Points", "Wins", "Rank", "Player", "Year"])) ∧
    "Deaths" ∈ missing_columns ["Points", "Wins", "Rank", "Player", "Year"] :=
  ⟨C4_loader_checks.1 _ (by decide),
   C4_loader_checks.2.1 _ (by decide),
   C4_loader_checks.2.2.1 _ "Deaths" (by decide) (by decide)⟩

theorem wrap64_eq_self {n : Int} (h0 : 0 ≤ n) (h : n < 2 ^ 63) : wrap64 n = n := by
  have hm : n % (2 ^ 64 : Int) = n := Int.emod_eq_of_lt h0 (lt_trans h (by norm_num))
  simp only [wrap64, hm]
  rw [if_pos h]

theorem wrap64_pow_small {w : Nat} (h : w ≤ 62) : wrap64 ((2 : Int) ^ w) = 2 ^ w := by
  refine wrap64_eq_self (by positivity) (lt_of_le_of_lt ?_ (by norm_num : (2:Int) ^ 62 < 2 ^ 63))
  exact pow_le_pow_right₀ (by norm_num) h

theorem wrap64_pow_large {w : Nat} (h : 64 ≤ w) : wrap64 ((2 : Int) ^ w) = 0 := by
  have hm : (2 : Int) ^ w % 2 ^ 64 = 0 := Int.emod_eq_zero_of_dvd (pow_dvd_pow 2 h)
  simp only [wrap64, hm]
  rw [if_pos (by norm_num)]

/-- Below the int64 overflow threshold the grid size is the idealized
clipped exponential. -/
theorem gridSize_eq_of_le {w : Nat} (h : w ≤ 62) :
    gridSize w = min ((2 : Int) ^ w) 500 * 100 := by
  have h0 : (0 : Int) ≤ min ((2 : Int) ^ w) 500 := le_min (by positivity) (by norm_num)
  have h1 : min ((2 : Int) ^ w) 500 * 100 ≤ 50000 := by
    calc min ((2 : Int) ^ w) 500 * 100 ≤ 500 * 100 :=
          mul_le_mul_of_nonneg_right (min_le_right _ _) (by norm_num)
    _ = 50000 := by norm_num
  rw [gridSize, wrap64_pow_small h]
  exact wrap64_eq_self (mul_nonneg h0 (by norm_num)) (lt_of_le_of_lt h1 (by norm_num))

/-- From 64 wins on the wrapped power is 0, so the size is 0. -/
theorem gridSize_eq_zero_of_ge {w : Nat} (h : 64 ≤ w) : gridSize w = 0 := by
  rw [gridSize, wrap64_pow_large h]
  norm_num [wrap64]

/-- C5 counterexample: the linear size encoding of the animated script at
TotalWins = 3 — reachable, since wins accumulate over a multi-year range —
is 700, exceeding the configured `max_size = 500`; and the grid encoding
is not monotonic for all TotalWins either: at TotalWins = 63 the int64
power wraps and the size drops from 50000 to 0. -/
theorem C5_counterexample :
    animatedSize 3 = 700 ∧ ¬ animatedSize 3 ≤ max_size ∧
    gridSize 62 = 50000 ∧ gridSize 63 = 0 ∧ ¬ gridSize 62 ≤ gridSize 63 := by
  refine ⟨?_, ?_, by decide, by decide, by decide⟩
  · norm_num [animatedSize, max_size, sizing_factor]
  · norm_num [animatedSize, max_size, sizing_factor]

/-- C5 amended: both size encodings are strictly positive at TotalWins = 0;
the grid encoding is monotonic non-decreasing below the int64 overflow
threshold (TotalWins ≤ 62) and never exceeds its clip-times-scale bound
500·100 = 50000 for any TotalWins (from 63 on the wrapped size is ≤ 0);
the animated linear encoding is monotonic everywhere but respects its
`max_size` cap only for TotalWins ≤ 2. -/
theorem C5_size_encoding :
    (∀ a b : Nat, a ≤ b → b ≤ 62 → gridSize a ≤ gridSize b) ∧
    (∀ w : Nat, gridSize w ≤ 50000) ∧
    0 < gridSize 0 ∧
    (∀ a b : Nat, a ≤ b → animatedSize a ≤ animatedSize b) ∧
    0 < animatedSize 0 ∧
    (∀ w : Nat, w ≤ 2 → animatedSize w ≤ max_size) := by
  have hlin : ∀ w : Nat, animatedSize w = 200 * (w : Rat) + 100 := by
    intro w
    rw [animatedSize, sizing_factor, max_size]
    ring
  refine ⟨?_, ?_, by decide, ?_, ?_, ?_⟩
  · intro a b hab hb
    rw [gridSize_eq_of_le (le_trans hab hb), gridSize_eq_of_le hb]
    have hpow : (2 : Int) ^ a ≤ 2 ^ b := pow_le_pow_right₀ (by norm_num) hab
    exact mul_le_mul_of_nonneg_right (min_le_min hpow le_rfl) (by norm_num)
  · intro w
    rcases le_or_lt w 62 with h | h
    · rw [gridSize_eq_of_le h]
      calc min ((2 : Int) ^ w) 500 * 100 ≤ 500 * 100 :=
            mul_le_mul_of_nonneg_right (min_le_right _ _) (by norm_num)
      _ = 50000 := by norm_num
    · rcases Nat.lt_or_ge w 64 with h' | h'
      · have hw : w = 63 := by omega
        subst hw
        decide
      · rw [gridSize_eq_zero_of_ge h']
        norm_num
  · intro a b h
    rw [hlin, hlin]
    have hc : (a : Rat) ≤ b := by exact_mod_cast h
    linarith
  · rw [hlin]
    norm_num
  · intro w h
    rw [hlin, max_size]
    have hc : (w : Rat) ≤ 2 := by exact_mod_cast h
    linarith

/-- Witness for the amended C5 at concrete win counts. -/
theorem C5_size_encoding_witness :
    gridSize 1 ≤ gridSize 3 ∧ gridSize 9 ≤ 50000 ∧
    animatedSize 0 ≤ animatedSize 2 ∧ animatedSize 2 ≤ max_size :=
  ⟨C5_size_encoding.1 1 3 (by norm_num) (by norm_num), C5_size_encoding.2.1 9,
   C5_size_encoding.2.2.2.1 0 2 (by norm_num), C5_size_encoding.2.2.2.2.2 2 (by norm_num)⟩

/-- C8: in sequence mode every range gets its loop iteration (its path is
appended to `frame_paths` either way), one error line is printed per failed
chart, the file of a successful chart is produced no matter which other charts
fail, the assembly step is still attempted and the run completes. -/
theorem C8_chart_failures_isolated :
    ∀ (renderOk : List Int → Bool) (assembleOk : Bool) (ranges : List (List Int)),
      (runSequence renderOk assembleOk ranges).frame_paths = ranges.map framePathFor ∧
      (runSequence renderOk assembleOk ranges).chartErrors =
        (ranges.filter (fun yr => !renderOk yr)).length ∧
      (∀ yr ∈ ranges, renderOk yr = true →
        framePathFor yr ∈ (runSequence renderOk assembleOk ranges).produced) ∧
      (runSequence renderOk assembleOk ranges).assemblyAttempted = true ∧
      (runSequence renderOk assembleOk ranges).completed = true := by
  intro renderOk assembleOk ranges
  refine ⟨by simp [runSequence], ?_, ?_, rfl, rfl⟩
  · induction ranges with
    | nil => simp [runSequence]
    | cons yr rs ih =>
      by_cases h : renderOk yr
      · simpa [runSequence, plot_for_year_model, h] using ih
      · simpa [runSequence, plot_for_year_model, h, Nat.add_comm] using ih
  · intro yr hyr h
    simp only [runSequence]
    rw [List.mem_filterMap]
    refine ⟨(yr, plot_for_year_model renderOk yr), List.mem_map.2 ⟨yr, hyr, rfl⟩, ?_⟩
    simp [plot_for_year_model, h]

/-- Witness for C8: with a two-range run whose second chart fails, one
error is reported, the file of the first chart is still produced and the run
completes. -/
theorem C8_chart_failures_isolated_witness :
    (runSequence (fun yr => decide (yr ≠ [2017, 2018])) true
        [[2017], [2017, 2018]]).chartErrors =
      ([[(2017 : Int)], [2017, 2018]].filter
        (fun yr => !decide (yr ≠ [2017, 2018]))).length ∧
    framePathFor [2017] ∈
      (runSequence (fun yr => decide (yr ≠ [2017, 2018])) true
        [[2017], [2017, 2018]]).produced ∧
    (runSequence (fun yr => decide (yr ≠ [2017, 2018])) true
        [[2017], [2017, 2018]]).completed = true :=
  ⟨(C8_chart_failures_isolated _ true _).2.1,
   (C8_chart_failures_isolated _ true _).2.2.1 [2017] (by decide) (by decide),
   (C8_chart_failures_isolated _ true _).2.2.2.2⟩

/-- Two dataframes equal on their base columns stay equal after any filter
that reads only base columns. -/
theorem filter_map_toRecord (p : Record → Bool) {rows1 rows2 : List RecordC}
    (h : rows1.map RecordC.toRecord = rows2.map RecordC.toRecord) :
    (rows1.filter (fun r => p r.toRecord)).map RecordC.toRecord =
      (rows2.filter (fun r => p r.toRecord)).map RecordC.toRecord := by
  induction rows1 generalizing rows2 with
  | nil =>
    cases rows2 with
    | nil => rfl
    | cons b bs => simp at h
  | cons a as ih =>
    cases rows2 with
    | nil => simp at h
    | cons b bs =>
      simp only [List.map_cons, List.cons.injEq] at h
      obtain ⟨hab, htail⟩ := h
      simp only [List.filter_cons]
      rw [hab]
      by_cases hp : p b.toRecord
      · simp [hp, hab, ih htail]
      · simp [hp, ih htail]

/-- The player group taken inside `plot_cumulative_years`, written as one
filter over the base columns of the raw dataframe. -/
theorem rowsFor_grid (p : String) (yearRange : List Int) (rows : List RecordC) :
    rowsFor p ((rows.filter
        (fun r => decide (r.toRecord.year ∈ yearRange))).map RecordC.toRecord) =
      (rows.map RecordC.toRecord).filter
        (fun r => decide (r.player = p) && decide (r.year ∈ yearRange)) := by
  rw [rowsFor, List.filter_map, List.filter_filter, List.filter_map]
  congr 1

/-- Concrete evaluation of the grid plot on the fixture dataframe. -/
theorem fix3C_points :
    plot_cumulative_years_points fix3C (rangeIncl 2020 2021) = [pointA, pointB] := by
  have hm : (fix3C.filter
      (fun r => decide (r.toRecord.year ∈ rangeIncl 2020 2021))).map RecordC.toRecord =
      filterRange fix3 (rangeIncl 2020 2021) := by decide
  have hg0 : gridSize 0 = 100 := by decide
  have hg1 : gridSize 1 = 200 := by decide
  simp only [plot_cumulative_years_points]
  rw [hm, fix3_aggregate]
  simp [summaryA, summaryB, pointA, pointB, hg0, hg1, PointSpec.mk.injEq]

/-- C9: the plotted points of the grid script are unchanged under any change of
the `Rank_Color` column (it is never read after being computed), and every
color value of every point is the raw mean in-range `Rank` — not a
normalized value. -/
theorem C9_grid_color_is_raw_average_rank :
    (∀ (rows1 rows2 : List RecordC) (yearRange : List Int),
      rows1.map RecordC.toRecord = rows2.map RecordC.toRecord →
        plot_cumulative_years_points rows1 yearRange =
          plot_cumulative_years_points rows2 yearRange) ∧
    (∀ (rows : List RecordC) (yearRange : List Int) (pt : PointSpec),
      pt ∈ plot_cumulative_years_points rows yearRange →
        pt.color = (((rows.map RecordC.toRecord).filter (fun r =>
            decide (r.player = pt.label) && decide (r.year ∈ yearRange))).map
          Record.rank).sum /
          (((rows.map RecordC.toRecord).filter (fun r =>
            decide (r.player = pt.label) && decide (r.year ∈ yearRange))).length : Rat)) := by
  constructor
  · intro rows1 rows2 yearRange h
    simp only [plot_cumulative_years_points]
    rw [filter_map_toRecord (fun rec => decide (rec.year ∈ yearRange)) h]
  · intro rows yearRange pt hpt
    simp only [plot_cumulative_years_points, List.mem_map] at hpt
    obtain ⟨s, hs, rfl⟩ := hpt
    show s.averageRank =
      (((rows.map RecordC.toRecord).filter (fun r =>
          decide (r.player = s.player) && decide (r.year ∈ yearRange))).map
        Record.rank).sum /
        (((rows.map RecordC.toRecord).filter (fun r =>
          decide (r.player = s.player) && decide (r.year ∈ yearRange))).length : Rat)
    rw [(aggregate_fields hs).2.2.2, rowsFor_grid]

/-- Witness for C9: on the fixture dataframe, changing `Rank_Color` leaves
the points unchanged, and the PlayerA point carries color 5/2 — the raw mean
rank. -/
theorem C9_grid_color_is_raw_average_rank_witness :
    plot_cumulative_years_points fix3C (rangeIncl 2020 2021) =
      plot_cumulative_years_points fix3Cb (rangeIncl 2020 2021) ∧
    pointA ∈ plot_cumulative_years_points fix3C (rangeIncl 2020 2021) ∧
    pointA.color = (((fix3C.map RecordC.toRecord).filter (fun r =>
        decide (r.player = pointA.label) && decide (r.year ∈ rangeIncl 2020 2021))).map
      Record.rank).sum /
      (((fix3C.map RecordC.toRecord).filter (fun r =>
        decide (r.player = pointA.label) && decide (r.year ∈ rangeIncl 2020 2021))).length :
        Rat) := by
  have hmem : pointA ∈ plot_cumulative_years_points fix3C (rangeIncl 2020 2021) := by
    rw [fix3C_points]
    exact List.mem_cons_self _ _
  exact ⟨C9_grid_color_is_raw_average_rank.1 fix3C fix3Cb _ (by decide), hmem,
    C9_grid_color_is_raw_average_rank.2 fix3C (rangeIncl 2020 2021) pointA hmem⟩

/-- C10: the aggregated rows come out sorted ascending (and without
duplicates) by the grouping key `Player`, hence in a deterministic order. -/
theorem C10_output_sorted_by_player :
    ∀ (rows : List Record) (yearRange : List Int),
      List.Sorted strLe ((aggregate (filterRange rows yearRange)).map Summary.player) ∧
      ((aggregate (filterRange rows yearRange)).map Summary.player).Nodup := by
  intro rows yearRange
  rw [aggregate_map_player]
  exact ⟨sorted_playersOf _, nodup_playersOf _⟩

end DeathPool
